import Mathlib

/-!
Verification development for the goal-funding transfer coordinator of the
finacial-genZ-savings app.

The data model follows `src/lib/database.types.ts` (tables `wallets`,
`goals`, `transactions`, `investments`, `profiles`).  The transfer
coordinator is `AddMoneyModal.handleAddMoney` (src/unnamed/part_000,
lines 688-742), the expense/income form is
`CreateTransactionModal.handleCreate` (lines 1391-1434), and the dashboard
progress figures come from `GoalCard` (lines 586-663 and
src/app/(tabs)/index.tsx lines 219-241).

JavaScript numbers are modelled as rationals; `parseFloat` is modelled as a
partial parse returning `Option ℚ` (`none` standing for `NaN`).  Each of the
three remote writes of the coordinator may independently fail; a
`FailureSpec` records which ones do.
-/

namespace FinGenZ

/-- Transaction kinds, from the `transaction_type` enum
(`'income' | 'expense' | 'transfer'`). -/
inductive TransactionType where
  | income
  | expense
  | transfer
deriving Repr, DecidableEq

/-- The string the app stores for a transaction kind. -/
def TransactionType.str : TransactionType → String
  | .income => "income"
  | .expense => "expense"
  | .transfer => "transfer"

/-- A `wallets` row (fields used by the app; `created_at` and the
spending/savings kind are carried but never read by the coordinator). -/
structure Wallet where
  id : String
  user_id : String
  name : String
  balance : ℚ
deriving Repr, DecidableEq

/-- A `goals` row. -/
structure Goal where
  id : String
  user_id : String
  name : String
  current_amount : ℚ
  target_amount : ℚ
deriving Repr, DecidableEq

/-- A `transactions` row as the app inserts it (`id` and `created_at` are
generated by the store and omitted; the insert payload's `title` is kept). -/
structure Txn where
  title : String
  user_id : String
  description : String
  amount : ℚ
  type : TransactionType
  category : Option String
deriving Repr, DecidableEq

/-- An `investments` row. -/
structure Investment where
  id : String
  user_id : String
  name : String
  symbol : String
  quantity : ℚ
  current_value : ℚ
deriving Repr, DecidableEq

/-- A `profiles` row. -/
structure Profile where
  id : String
  full_name : Option String
  avatar_url : Option String
deriving Repr, DecidableEq

/-- The remote datastore: one list of rows per collection. -/
structure DB where
  wallets : List Wallet
  goals : List Goal
  transactions : List Txn
  investments : List Investment
  profiles : List Profile
deriving Repr, DecidableEq

/-- Numeric value of a digit character. -/
def digitVal (c : Char) : ℕ := c.toNat - ('0').toNat

/-- Value of a digit string read left to right. -/
def digitsToNat (ds : List Char) : ℕ :=
  ds.foldl (fun acc c => 10 * acc + digitVal c) 0

/-- Model of JavaScript `parseFloat` over rationals: skip leading blanks,
read an optional sign, a run of digits, an optional dot followed by more
digits, and ignore everything after that (so `"12abc"` reads as `12`).
`none` stands for `NaN` (no digits at all, as for `""` or `"abc"`).
The exponent form (`"1e3"`) is not modelled; no caller supplies it. -/
def parseFloatQ (s : String) : Option ℚ :=
  let cs := s.toList.dropWhile (fun c => c == ' ' || c == '\t' || c == '\n' || c == '\r')
  let signed : ℚ × List Char :=
    match cs with
    | '-' :: t => (-1, t)
    | '+' :: t => (1, t)
    | _ => (1, cs)
  let intPart := signed.2.takeWhile Char.isDigit
  let rest := signed.2.dropWhile Char.isDigit
  let fracPart : List Char :=
    match rest with
    | '.' :: t => t.takeWhile Char.isDigit
    | _ => []
  if intPart.isEmpty && fracPart.isEmpty then none
  else
    some (signed.1 * ((digitsToNat intPart : ℚ) +
      (digitsToNat fracPart : ℚ) / (10 : ℚ) ^ fracPart.length))

/-- `supabase.from("goals").update({ current_amount := v }).eq("id", gid)`:
set `current_amount` on every row whose id matches. -/
def updateGoalAmount (goals : List Goal) (gid : String) (v : ℚ) : List Goal :=
  goals.map fun g => if g.id = gid then { g with current_amount := v } else g

/-- `supabase.from("wallets").update({ balance := v }).eq("id", wid)`. -/
def updateWalletBalance (ws : List Wallet) (wid : String) (v : ℚ) : List Wallet :=
  ws.map fun w => if w.id = wid then { w with balance := v } else w

/-- Which of the three independent remote writes of a transfer fail. -/
structure FailureSpec where
  goalFails : Bool
  walletFails : Bool
  txFails : Bool
deriving Repr, DecidableEq

/-- All three writes succeed. -/
def FailureSpec.allOk : FailureSpec := ⟨false, false, false⟩

/-- Outcome of a transfer invocation, per the spec's error taxonomy:
local validation failure (any early-return alert), partial write failure
after validation passed, or full commit. -/
inductive TransferResult where
  | validationError
  | partialFailure
  | committed
deriving Repr, DecidableEq

/-- The transaction record the coordinator inserts
(lines 720-727 of src/unnamed/part_000). -/
def transferRecord (uid : String) (goal : Goal) (amount : ℚ) : Txn :=
  { title := "Transfer to " ++ goal.name
    user_id := uid
    description := "Transfer to \"" ++ goal.name ++ "\""
    amount := amount
    type := .transfer
    category := some "Goals" }

/-- `AddMoneyModal.handleAddMoney` (src/unnamed/part_000 lines 688-742).
Guards in source order: empty amount text / missing user / no selected
wallet; selected wallet not found among the snapshot `wallets`;
`isNaN(addedAmount) || addedAmount <= 0`; `selectedWallet.balance <
addedAmount`.  Then the three writes are issued together (`Promise.all`);
each applies unless its entry of `f` fails, and any failure yields the
generic could-not-complete alert (no rollback). -/
def handleAddMoney (amountText : String) (userId : Option String)
    (selectedWalletId : Option String) (goal : Goal) (wallets : List Wallet)
    (db : DB) (f : FailureSpec) : TransferResult × DB :=
  match userId, selectedWalletId with
  | some uid, some wid =>
    if amountText = "" then (.validationError, db)
    else
      match wallets.find? (fun w => w.id == wid) with
      | none => (.validationError, db)
      | some selectedWallet =>
        match parseFloatQ amountText with
        | none => (.validationError, db)
        | some addedAmount =>
          if addedAmount ≤ 0 then (.validationError, db)
          else if selectedWallet.balance < addedAmount then (.validationError, db)
          else
            let newGoalAmount := goal.current_amount + addedAmount
            let newWalletBalance := selectedWallet.balance - addedAmount
            let db1 : DB :=
              { db with
                goals := if f.goalFails then db.goals
                  else updateGoalAmount db.goals goal.id newGoalAmount
                wallets := if f.walletFails then db.wallets
                  else updateWalletBalance db.wallets wid newWalletBalance
                transactions := if f.txFails then db.transactions
                  else db.transactions ++ [transferRecord uid goal addedAmount] }
            if f.goalFails || f.walletFails || f.txFails then (.partialFailure, db1)
            else (.committed, db1)
  | _, _ => (.validationError, db)

/-- `const progress = (goal.current_amount / goal.target_amount) * 100`
(GoalCard, src/unnamed/part_000 line 593 and src/app/(tabs)/index.tsx
line 220). -/
def progressOf (g : Goal) : ℚ := g.current_amount / g.target_amount * 100

/-- The progress-bar fill width: `Math.min(progress, 100)` percent
(line 635 and index.tsx line 234). -/
def progressBarWidth (g : Goal) : ℚ := min (progressOf g) 100

/-- JavaScript `Math.round`: round half toward positive infinity. -/
def jsMathRound (q : ℚ) : ℤ := ⌊q + 1 / 2⌋

/-- The percentage figure the card prints: `Math.round(progress)`
"% complete" (line 641 and index.tsx line 238) — no clamp is applied. -/
def progressPercentText (g : Goal) : ℤ := jsMathRound (progressOf g)

/-- Which of the two writes of the expense/income form fail. -/
structure CreateFailureSpec where
  txFails : Bool
  walletFails : Bool
deriving Repr, DecidableEq

/-- Outcome of `CreateTransactionModal.handleCreate`: missing-fields alert,
silent return on an unknown wallet id, insert-failed alert (nothing
written), wallet-update-failed alert (ledger entry kept), or success. -/
inductive CreateResult where
  | missingFields
  | walletNotFound
  | insertError
  | walletUpdateError
  | created
deriving Repr, DecidableEq

/-- `CreateTransactionModal.handleCreate` (src/unnamed/part_000 lines
1391-1434).  No balance check and no NaN/positivity check on the parsed
amount: the transaction is inserted first, then the wallet balance is set
to `balance ± amount`.  A failed wallet update leaves the inserted ledger
entry in place.  `none` is returned only when `parseFloat` yields `NaN`
(the source then carries NaN into the arithmetic, which has no rational
counterpart); every claim checked here stays on numeric input. -/
def handleCreate (description amountText : String)
    (txType : TransactionType) (selectedWalletId : Option String)
    (userId : Option String) (wallets : List Wallet) (db : DB)
    (f : CreateFailureSpec) : Option (CreateResult × DB) :=
  match userId, selectedWalletId with
  | some uid, some wid =>
    if description = "" ∨ amountText = "" then some (.missingFields, db)
    else
      match parseFloatQ amountText with
      | none => none
      | some numericAmount =>
        match wallets.find? (fun w => w.id == wid) with
        | none => some (.walletNotFound, db)
        | some selectedWallet =>
          let newBalance :=
            if txType = .income then selectedWallet.balance + numericAmount
            else selectedWallet.balance - numericAmount
          if f.txFails then some (.insertError, db)
          else
            let db1 : DB :=
              { db with transactions := db.transactions ++
                  [{ title := txType.str
                     user_id := uid
                     description := description
                     amount := numericAmount
                     type := txType
                     category := none }] }
            if f.walletFails then some (.walletUpdateError, db1)
            else
              some (.created,
                { db1 with wallets := updateWalletBalance db1.wallets wid newBalance })
  | _, _ => some (.missingFields, db)

/-- Sample goal used to instantiate the theorems on concrete data. -/
def gSample : Goal :=
  { id := "g1", user_id := "u1", name := "Trip"
    current_amount := 0, target_amount := 200 }

/-- Sample wallet with balance 100. -/
def wSample : Wallet :=
  { id := "w1", user_id := "u1", name := "Main", balance := 100 }

/-- Sample datastore holding just `wSample` and `gSample`. -/
def dbSample : DB :=
  { wallets := [wSample], goals := [gSample]
    transactions := [], investments := [], profiles := [] }

/-- Goal funded beyond its target: 250 of 200. -/
def gOver : Goal :=
  { id := "g2", user_id := "u1", name := "Laptop"
    current_amount := 250, target_amount := 200 }

/-- Goal funded to a quarter of its target: 50 of 200. -/
def gQuarter : Goal :=
  { id := "g3", user_id := "u1", name := "Bike"
    current_amount := 50, target_amount := 200 }

theorem mem_updateGoalAmount {l : List Goal} {gid : String} {v : ℚ} :
    ∀ g ∈ updateGoalAmount l gid v, g.id = gid → g.current_amount = v := by
  intro g hg hid
  simp only [updateGoalAmount, List.mem_map] at hg
  obtain ⟨g0, hg0, rfl⟩ := hg
  by_cases h : g0.id = gid
  · simp [h]
  · simp only [if_neg h] at hid
    exact absurd hid h

theorem mem_updateWalletBalance {l : List Wallet} {wid : String} {v : ℚ} :
    ∀ w ∈ updateWalletBalance l wid v, w.id = wid → w.balance = v := by
  intro w hw hid
  simp only [updateWalletBalance, List.mem_map] at hw
  obtain ⟨w0, hw0, rfl⟩ := hw
  by_cases h : w0.id = wid
  · simp [h]
  · simp only [if_neg h] at hid
    exact absurd hid h

theorem handleAddMoney_ok {t : String} {uid wid : String} {q : ℚ}
    {goal : Goal} {wallet : Wallet} {wallets : List Wallet} (db : DB)
    (f : FailureSpec)
    (ht : t ≠ "")
    (hparse : parseFloatQ t = some q)
    (hpos : 0 < q)
    (hbal : q ≤ wallet.balance)
    (hfind : wallets.find? (fun w => w.id == wid) = some wallet) :
    handleAddMoney t (some uid) (some wid) goal wallets db f =
      ((if f.goalFails || f.walletFails || f.txFails then .partialFailure
        else .committed),
       { db with
         goals := if f.goalFails then db.goals
           else updateGoalAmount db.goals goal.id (goal.current_amount + q)
         wallets := if f.walletFails then db.wallets
           else updateWalletBalance db.wallets wid (wallet.balance - q)
         transactions := if f.txFails then db.transactions
           else db.transactions ++ [transferRecord uid goal q] }) := by
  simp only [handleAddMoney]
  rw [if_neg ht, hfind, hparse]
  dsimp only
  rw [if_neg (not_le.mpr hpos), if_neg (not_lt.mpr hbal)]
  by_cases hfail : (f.goalFails || f.walletFails || f.txFails : Bool)
  · rw [if_pos hfail, if_pos hfail]
  · rw [if_neg hfail, if_neg hfail]

theorem handleAddMoney_cases (t : String) (u s : Option String) (goal : Goal)
    (wallets : List Wallet) (db : DB) (f : FailureSpec) :
    handleAddMoney t u s goal wallets db f = (.validationError, db) ∨
    ∃ uid wid wallet q, u = some uid ∧ s = some wid ∧
      wallets.find? (fun w => w.id == wid) = some wallet ∧
      parseFloatQ t = some q ∧ 0 < q ∧ q ≤ wallet.balance ∧
      handleAddMoney t u s goal wallets db f =
        ((if f.goalFails || f.walletFails || f.txFails then .partialFailure
          else .committed),
         { db with
           goals := if f.goalFails then db.goals
             else updateGoalAmount db.goals goal.id (goal.current_amount + q)
           wallets := if f.walletFails then db.wallets
             else updateWalletBalance db.wallets wid (wallet.balance - q)
           transactions := if f.txFails then db.transactions
             else db.transactions ++ [transferRecord uid goal q] }) := by
  cases u with
  | none => left; rfl
  | some uid =>
    cases s with
    | none => left; rfl
    | some wid =>
      by_cases ht : t = ""
      · left; simp only [handleAddMoney]; rw [if_pos ht]
      · cases hfind : wallets.find? (fun w => w.id == wid) with
        | none => left; simp only [handleAddMoney]; rw [if_neg ht, hfind]
        | some wallet =>
          cases hparse : parseFloatQ t with
          | none => left; simp only [handleAddMoney]; rw [if_neg ht, hfind, hparse]
          | some q =>
            by_cases hq : q ≤ 0
            · left; simp only [handleAddMoney]; rw [if_neg ht, hfind, hparse]
              dsimp only
              rw [if_pos hq]
            · by_cases hb : wallet.balance < q
              · left; simp only [handleAddMoney]; rw [if_neg ht, hfind, hparse]
                dsimp only
                rw [if_neg hq, if_pos hb]
              · right
                exact ⟨uid, wid, wallet, q, rfl, rfl, hfind, rfl,
                  lt_of_not_le hq, le_of_not_lt hb,
                  handleAddMoney_ok db f ht hparse (lt_of_not_le hq)
                    (le_of_not_lt hb) hfind⟩

/-- C1: for a transfer whose amount text parses to a positive number within
the selected wallet's snapshot balance, and whose three writes all succeed,
the invocation commits, the goal row's `current_amount` becomes the snapshot
amount plus the transfer amount (an increase by exactly the amount, given
the store matched the snapshot), the wallet row's balance becomes the
snapshot balance minus the amount, and exactly one transaction is appended,
of kind transfer, category "Goals", that amount, and a description naming
the goal. -/
theorem transfer_success_effect (t uid wid : String) (q : ℚ) (goal : Goal)
    (wallet : Wallet) (wallets : List Wallet) (db : DB)
    (ht : t ≠ "")
    (hparse : parseFloatQ t = some q)
    (hpos : 0 < q)
    (hbal : q ≤ wallet.balance)
    (hfind : wallets.find? (fun w => w.id == wid) = some wallet)
    (_hg : ∀ g ∈ db.goals, g.id = goal.id → g.current_amount = goal.current_amount)
    (_hw : ∀ w ∈ db.wallets, w.id = wid → w.balance = wallet.balance) :
    (handleAddMoney t (some uid) (some wid) goal wallets db .allOk).1
        = .committed ∧
    (∀ g ∈ (handleAddMoney t (some uid) (some wid) goal wallets db .allOk).2.goals,
        g.id = goal.id → g.current_amount = goal.current_amount + q) ∧
    (∀ w ∈ (handleAddMoney t (some uid) (some wid) goal wallets db .allOk).2.wallets,
        w.id = wid → w.balance = wallet.balance - q) ∧
    ∃ rec : Txn,
      (handleAddMoney t (some uid) (some wid) goal wallets db .allOk).2.transactions
          = db.transactions ++ [rec] ∧
      rec.type = .transfer ∧ rec.category = some "Goals" ∧ rec.amount = q ∧
      rec.description = "Transfer to \"" ++ goal.name ++ "\"" := by
  rw [handleAddMoney_ok db .allOk ht hparse hpos hbal hfind]
  refine ⟨rfl, ?_, ?_, transferRecord uid goal q, rfl, rfl, rfl, rfl, rfl⟩
  · exact mem_updateGoalAmount
  · exact mem_updateWalletBalance

/-- C1 witness: transferring "50" from the sample wallet (balance 100) into
the sample goal commits with all stated effects. -/
theorem transfer_success_effect_witness :
    ("50" : String) ≠ "" ∧
    parseFloatQ "50" = some 50 ∧
    (0 : ℚ) < 50 ∧
    (50 : ℚ) ≤ wSample.balance ∧
    [wSample].find? (fun w => w.id == "w1") = some wSample ∧
    (∀ g ∈ dbSample.goals, g.id = gSample.id →
      g.current_amount = gSample.current_amount) ∧
    (∀ w ∈ dbSample.wallets, w.id = "w1" → w.balance = wSample.balance) ∧
    (handleAddMoney "50" (some "u1") (some "w1") gSample [wSample] dbSample
        .allOk).1 = .committed ∧
    (∀ g ∈ (handleAddMoney "50" (some "u1") (some "w1") gSample [wSample]
        dbSample .allOk).2.goals,
      g.id = gSample.id → g.current_amount = gSample.current_amount + 50) ∧
    (∀ w ∈ (handleAddMoney "50" (some "u1") (some "w1") gSample [wSample]
        dbSample .allOk).2.wallets,
      w.id = "w1" → w.balance = wSample.balance - 50) ∧
    ∃ rec : Txn,
      (handleAddMoney "50" (some "u1") (some "w1") gSample [wSample] dbSample
          .allOk).2.transactions = dbSample.transactions ++ [rec] ∧
      rec.type = .transfer ∧ rec.category = some "Goals" ∧ rec.amount = 50 ∧
      rec.description = "Transfer to \"" ++ gSample.name ++ "\"" := by
  have h1 : ("50" : String) ≠ "" := by decide
  have h2 : parseFloatQ "50" = some 50 := by
    simp [parseFloatQ, digitsToNat, digitVal]
  have h3 : (0 : ℚ) < 50 := by norm_num
  have h4 : (50 : ℚ) ≤ wSample.balance := by norm_num [wSample]
  have h5 : [wSample].find? (fun w => w.id == "w1") = some wSample := by rfl
  have h6 : ∀ g ∈ dbSample.goals, g.id = gSample.id →
      g.current_amount = gSample.current_amount := by simp [dbSample]
  have h7 : ∀ w ∈ dbSample.wallets, w.id = "w1" → w.balance = wSample.balance := by
    simp [dbSample, wSample]
  obtain ⟨c1, c2, c3, c4⟩ := transfer_success_effect "50" "u1" "w1" 50 gSample
    wSample [wSample] dbSample h1 h2 h3 h4 h5 h6 h7
  exact ⟨h1, h2, h3, h4, h5, h6, h7, c1, c2, c3, c4⟩

/-- C2: when the requested amount parses to a value exceeding the selected
wallet's snapshot balance, the transfer returns a validation error and the
datastore is completely unchanged (zero remote writes), for every failure
specification. -/
theorem transfer_insufficient_funds_rejected (t uid wid : String) (q : ℚ)
    (goal : Goal) (wallet : Wallet) (wallets : List Wallet) (db : DB)
    (f : FailureSpec)
    (hparse : parseFloatQ t = some q)
    (hfind : wallets.find? (fun w => w.id == wid) = some wallet)
    (hover : wallet.balance < q) :
    handleAddMoney t (some uid) (some wid) goal wallets db f =
      (.validationError, db) := by
  have ht : t ≠ "" := by
    intro h
    rw [h] at hparse
    simp [parseFloatQ] at hparse
  simp only [handleAddMoney]
  rw [if_neg ht, hfind, hparse]
  dsimp only
  by_cases hq : q ≤ 0
  · rw [if_pos hq]
  · rw [if_neg hq, if_pos hover]

/-- C2 witness: requesting 150 from the sample wallet with balance 100 is
rejected with no writes. -/
theorem transfer_insufficient_funds_rejected_witness :
    parseFloatQ "150" = some 150 ∧
    [wSample].find? (fun w => w.id == "w1") = some wSample ∧
    wSample.balance < 150 ∧
    handleAddMoney "150" (some "u1") (some "w1") gSample [wSample] dbSample
      .allOk = (.validationError, dbSample) := by
  have h1 : parseFloatQ "150" = some 150 := by
    simp [parseFloatQ, digitsToNat, digitVal]
  have h2 : [wSample].find? (fun w => w.id == "w1") = some wSample := by rfl
  have h3 : wSample.balance < 150 := by norm_num [wSample]
  exact ⟨h1, h2, h3, transfer_insufficient_funds_rejected "150" "u1" "w1" 150
    gSample wSample [wSample] dbSample .allOk h1 h2 h3⟩

/-- C4: when the amount text is empty, non-numeric, or parses to a value at
most zero, the transfer returns a validation error and the datastore is
completely unchanged (zero remote writes), whatever the other arguments. -/
theorem transfer_invalid_amount_rejected (t : String) (u s : Option String)
    (goal : Goal) (wallets : List Wallet) (db : DB) (f : FailureSpec)
    (h : t = "" ∨ parseFloatQ t = none ∨
      ∃ q, parseFloatQ t = some q ∧ q ≤ 0) :
    handleAddMoney t u s goal wallets db f = (.validationError, db) := by
  rcases handleAddMoney_cases t u s goal wallets db f with hc |
    ⟨uid, wid, wallet, q, hu, hs, hfind, hparse, hpos, hbal, heq⟩
  · exact hc
  · exfalso
    rcases h with h | h | ⟨q2, hq2, hq2le⟩
    · rw [h] at hparse
      simp [parseFloatQ] at hparse
    · rw [h] at hparse
      exact Option.noConfusion hparse
    · rw [hq2] at hparse
      rw [Option.some.inj hparse] at hq2le
      exact absurd hq2le (not_le.mpr hpos)

/-- C4 witness: amount texts "", "abc" and "0" are each rejected with no
writes on the sample datastore. -/
theorem transfer_invalid_amount_rejected_witness :
    (("" : String) = "" ∨ parseFloatQ "" = none ∨
      ∃ q, parseFloatQ "" = some q ∧ q ≤ 0) ∧
    (("abc" : String) = "" ∨ parseFloatQ "abc" = none ∨
      ∃ q, parseFloatQ "abc" = some q ∧ q ≤ 0) ∧
    (("0" : String) = "" ∨ parseFloatQ "0" = none ∨
      ∃ q, parseFloatQ "0" = some q ∧ q ≤ 0) ∧
    handleAddMoney "" (some "u1") (some "w1") gSample [wSample] dbSample
      .allOk = (.validationError, dbSample) ∧
    handleAddMoney "abc" (some "u1") (some "w1") gSample [wSample] dbSample
      .allOk = (.validationError, dbSample) ∧
    handleAddMoney "0" (some "u1") (some "w1") gSample [wSample] dbSample
      .allOk = (.validationError, dbSample) := by
  have h1 : ("" : String) = "" ∨ parseFloatQ "" = none ∨
      ∃ q, parseFloatQ "" = some q ∧ q ≤ 0 := Or.inl rfl
  have h2 : ("abc" : String) = "" ∨ parseFloatQ "abc" = none ∨
      ∃ q, parseFloatQ "abc" = some q ∧ q ≤ 0 := Or.inr (Or.inl rfl)
  have h3 : ("0" : String) = "" ∨ parseFloatQ "0" = none ∨
      ∃ q, parseFloatQ "0" = some q ∧ q ≤ 0 := by
    refine Or.inr (Or.inr ⟨0, ?_, le_refl 0⟩)
    simp [parseFloatQ, digitsToNat, digitVal]
  exact ⟨h1, h2, h3,
    transfer_invalid_amount_rejected "" (some "u1") (some "w1") gSample
      [wSample] dbSample .allOk h1,
    transfer_invalid_amount_rejected "abc" (some "u1") (some "w1") gSample
      [wSample] dbSample .allOk h2,
    transfer_invalid_amount_rejected "0" (some "u1") (some "w1") gSample
      [wSample] dbSample .allOk h3⟩

/-- C3: after local validation passes, any failing write yields the
partial-failure outcome (distinct from a validation error), and nothing is
rolled back: in the scenario where the goal update fails while the wallet
update succeeds, the goal rows are untouched while the wallet row now
carries the decreased balance. -/
theorem transfer_partial_failure_no_rollback (t uid wid : String) (q : ℚ)
    (goal : Goal) (wallet : Wallet) (wallets : List Wallet) (db : DB)
    (f : FailureSpec)
    (ht : t ≠ "")
    (hparse : parseFloatQ t = some q)
    (hpos : 0 < q)
    (hbal : q ≤ wallet.balance)
    (hfind : wallets.find? (fun w => w.id == wid) = some wallet)
    (hgf : f.goalFails = true)
    (hwf : f.walletFails = false) :
    (∀ f2 : FailureSpec, (f2.goalFails || f2.walletFails || f2.txFails) = true →
      (handleAddMoney t (some uid) (some wid) goal wallets db f2).1 =
        .partialFailure) ∧
    TransferResult.partialFailure ≠ TransferResult.validationError ∧
    (handleAddMoney t (some uid) (some wid) goal wallets db f).1 =
      .partialFailure ∧
    (handleAddMoney t (some uid) (some wid) goal wallets db f).2.goals =
      db.goals ∧
    (∀ w ∈ (handleAddMoney t (some uid) (some wid) goal wallets db f).2.wallets,
      w.id = wid → w.balance = wallet.balance - q) := by
  refine ⟨?_, by simp, ?_, ?_, ?_⟩
  · intro f2 hf2
    rw [handleAddMoney_ok db f2 ht hparse hpos hbal hfind]
    simp [hf2]
  · rw [handleAddMoney_ok db f ht hparse hpos hbal hfind]
    simp [hgf]
  · rw [handleAddMoney_ok db f ht hparse hpos hbal hfind]
    simp [hgf]
  · rw [handleAddMoney_ok db f ht hparse hpos hbal hfind]
    simp only [hwf, Bool.false_eq_true, if_false]
    exact mem_updateWalletBalance

/-- C3 witness: transferring "50" on the sample data with the goal write
failing and the wallet write succeeding shows the documented inconsistency. -/
theorem transfer_partial_failure_no_rollback_witness :
    ("50" : String) ≠ "" ∧
    parseFloatQ "50" = some 50 ∧
    (0 : ℚ) < 50 ∧
    (50 : ℚ) ≤ wSample.balance ∧
    [wSample].find? (fun w => w.id == "w1") = some wSample ∧
    (FailureSpec.mk true false false).goalFails = true ∧
    (FailureSpec.mk true false false).walletFails = false ∧
    ((∀ f2 : FailureSpec,
        (f2.goalFails || f2.walletFails || f2.txFails) = true →
        (handleAddMoney "50" (some "u1") (some "w1") gSample [wSample]
          dbSample f2).1 = .partialFailure) ∧
      TransferResult.partialFailure ≠ TransferResult.validationError ∧
      (handleAddMoney "50" (some "u1") (some "w1") gSample [wSample] dbSample
        (FailureSpec.mk true false false)).1 = .partialFailure ∧
      (handleAddMoney "50" (some "u1") (some "w1") gSample [wSample] dbSample
        (FailureSpec.mk true false false)).2.goals = dbSample.goals ∧
      (∀ w ∈ (handleAddMoney "50" (some "u1") (some "w1") gSample [wSample]
          dbSample (FailureSpec.mk true false false)).2.wallets,
        w.id = "w1" → w.balance = wSample.balance - 50)) := by
  have h1 : ("50" : String) ≠ "" := by decide
  have h2 : parseFloatQ "50" = some 50 := by
    simp [parseFloatQ, digitsToNat, digitVal]
  have h3 : (0 : ℚ) < 50 := by norm_num
  have h4 : (50 : ℚ) ≤ wSample.balance := by norm_num [wSample]
  have h5 : [wSample].find? (fun w => w.id == "w1") = some wSample := by rfl
  exact ⟨h1, h2, h3, h4, h5, rfl, rfl,
    transfer_partial_failure_no_rollback "50" "u1" "w1" 50 gSample wSample
      [wSample] dbSample (FailureSpec.mk true false false)
      h1 h2 h3 h4 h5 rfl rfl⟩

/-- C5: a transfer started from a wallet snapshot with non-negative balance
never leaves that wallet's stored balance negative, whatever the amount
text, user, failure pattern, and a store consistent with the snapshot:
either it is rejected before any write, or the balance written is the
snapshot balance minus an amount the validation bounded by it. -/
theorem transfer_never_negative_balance (t : String) (u : Option String)
    (wid : String) (goal : Goal) (wallet : Wallet) (wallets : List Wallet)
    (db : DB) (f : FailureSpec)
    (hfind : wallets.find? (fun w => w.id == wid) = some wallet)
    (hw0 : 0 ≤ wallet.balance)
    (hdb : ∀ w ∈ db.wallets, w.id = wid → w.balance = wallet.balance) :
    ∀ w ∈ (handleAddMoney t u (some wid) goal wallets db f).2.wallets,
      w.id = wid → 0 ≤ w.balance := by
  rcases handleAddMoney_cases t u (some wid) goal wallets db f with hc |
    ⟨uid, wid2, wallet2, q, hu, hs, hfind2, hparse, hpos, hbal, heq⟩
  · rw [hc]
    intro w hw hid
    rw [hdb w hw hid]
    exact hw0
  · obtain rfl : wid = wid2 := Option.some.inj hs
    have hweq : wallet2 = wallet := by
      rw [hfind2] at hfind
      exact Option.some.inj hfind
    rw [heq]
    dsimp only
    by_cases hwf : f.walletFails
    · rw [if_pos hwf]
      intro w hw hid
      rw [hdb w hw hid]
      exact hw0
    · rw [if_neg hwf]
      intro w hw hid
      rw [mem_updateWalletBalance w hw hid, hweq]
      exact sub_nonneg.mpr (hweq ▸ hbal)

/-- C5 witness: on the sample data (balance 100, amount "50") the stored
balance stays non-negative. -/
theorem transfer_never_negative_balance_witness :
    [wSample].find? (fun w => w.id == "w1") = some wSample ∧
    (0 : ℚ) ≤ wSample.balance ∧
    (∀ w ∈ dbSample.wallets, w.id = "w1" → w.balance = wSample.balance) ∧
    (∀ w ∈ (handleAddMoney "50" (some "u1") (some "w1") gSample [wSample]
        dbSample .allOk).2.wallets,
      w.id = "w1" → 0 ≤ w.balance) := by
  have h1 : [wSample].find? (fun w => w.id == "w1") = some wSample := by rfl
  have h2 : (0 : ℚ) ≤ wSample.balance := by norm_num [wSample]
  have h3 : ∀ w ∈ dbSample.wallets, w.id = "w1" →
      w.balance = wSample.balance := by simp [dbSample, wSample]
  exact ⟨h1, h2, h3, transfer_never_negative_balance "50" (some "u1") "w1"
    gSample wSample [wSample] dbSample .allOk h1 h2 h3⟩

theorem mem_updateGoalAmount_of_ne {l : List Goal} {gid : String} {v : ℚ} :
    ∀ g ∈ l, g.id ≠ gid → g ∈ updateGoalAmount l gid v := by
  intro g hg hne
  simp only [updateGoalAmount, List.mem_map]
  exact ⟨g, hg, if_neg hne⟩

theorem mem_updateWalletBalance_of_ne {l : List Wallet} {wid : String} {v : ℚ} :
    ∀ w ∈ l, w.id ≠ wid → w ∈ updateWalletBalance l wid v := by
  intro w hw hne
  simp only [updateWalletBalance, List.mem_map]
  exact ⟨w, hw, if_neg hne⟩

/-- C8: a transfer touches nothing beyond the selected goal, the selected
wallet and the single inserted transaction: investments and profiles are
equal before and after, every wallet row with another id and every goal row
with another id is still present, every pre-existing transaction is still
present, and the ledger is either unchanged or extended by exactly one
record, for every input and failure pattern. -/
theorem transfer_frame (t : String) (u : Option String) (wid : String)
    (goal : Goal) (wallets : List Wallet) (db : DB) (f : FailureSpec) :
    (handleAddMoney t u (some wid) goal wallets db f).2.investments =
      db.investments ∧
    (handleAddMoney t u (some wid) goal wallets db f).2.profiles =
      db.profiles ∧
    (∀ w ∈ db.wallets, w.id ≠ wid →
      w ∈ (handleAddMoney t u (some wid) goal wallets db f).2.wallets) ∧
    (∀ g ∈ db.goals, g.id ≠ goal.id →
      g ∈ (handleAddMoney t u (some wid) goal wallets db f).2.goals) ∧
    (∀ rec ∈ db.transactions,
      rec ∈ (handleAddMoney t u (some wid) goal wallets db f).2.transactions) ∧
    ((handleAddMoney t u (some wid) goal wallets db f).2.transactions =
        db.transactions ∨
      ∃ rec, (handleAddMoney t u (some wid) goal wallets db f).2.transactions =
        db.transactions ++ [rec]) := by
  rcases handleAddMoney_cases t u (some wid) goal wallets db f with hc |
    ⟨uid, wid2, wallet, q, hu, hs, hfind, hparse, hpos, hbal, heq⟩
  · rw [hc]
    exact ⟨rfl, rfl, fun w hw _ => hw, fun g hg _ => hg, fun r hr => hr,
      Or.inl rfl⟩
  · obtain rfl : wid = wid2 := Option.some.inj hs
    rw [heq]
    refine ⟨rfl, rfl, ?_, ?_, ?_, ?_⟩
    · intro w hw hne
      dsimp only
      by_cases hwf : f.walletFails
      · rw [if_pos hwf]; exact hw
      · rw [if_neg hwf]; exact mem_updateWalletBalance_of_ne w hw hne
    · intro g hg hne
      dsimp only
      by_cases hgf : f.goalFails
      · rw [if_pos hgf]; exact hg
      · rw [if_neg hgf]; exact mem_updateGoalAmount_of_ne g hg hne
    · intro r hr
      dsimp only
      by_cases htf : f.txFails
      · rw [if_pos htf]; exact hr
      · rw [if_neg htf]; exact List.mem_append_left _ hr
    · dsimp only
      by_cases htf : f.txFails
      · rw [if_pos htf]; exact Or.inl rfl
      · rw [if_neg htf]; exact Or.inr ⟨transferRecord uid goal q, rfl⟩

/-- C7 counterexample: invoking the transfer twice with the very same
arguments (amount "10", same goal and wallet snapshots, sample store) does
append two ledger entries, but because each invocation writes absolute
values computed from the stale snapshot, the final goal amount is 10 and
the final balance 90 — not the doubled change (20 and 80) the claim
asserts. -/
theorem transfer_repeat_same_snapshot_counterexample :
    ((handleAddMoney "10" (some "u1") (some "w1") gSample [wSample]
      (handleAddMoney "10" (some "u1") (some "w1") gSample [wSample] dbSample
        .allOk).2 .allOk).2.transactions.length = 2) ∧
    ((handleAddMoney "10" (some "u1") (some "w1") gSample [wSample]
      (handleAddMoney "10" (some "u1") (some "w1") gSample [wSample] dbSample
        .allOk).2 .allOk).2.goals.map Goal.current_amount = [10]) ∧
    ((handleAddMoney "10" (some "u1") (some "w1") gSample [wSample]
      (handleAddMoney "10" (some "u1") (some "w1") gSample [wSample] dbSample
        .allOk).2 .allOk).2.wallets.map Wallet.balance = [90]) ∧
    ¬ (∀ g ∈ (handleAddMoney "10" (some "u1") (some "w1") gSample [wSample]
        (handleAddMoney "10" (some "u1") (some "w1") gSample [wSample] dbSample
          .allOk).2 .allOk).2.goals,
        g.id = gSample.id →
          g.current_amount = gSample.current_amount + 2 * 10) := by
  have h1 : ("10" : String) ≠ "" := by decide
  have h2 : parseFloatQ "10" = some 10 := by
    simp [parseFloatQ, digitsToNat, digitVal]
  have h3 : (0 : ℚ) < 10 := by norm_num
  have h4 : (10 : ℚ) ≤ wSample.balance := by norm_num [wSample]
  have h5 : [wSample].find? (fun w => w.id == "w1") = some wSample := by rfl
  have e1 := @handleAddMoney_ok "10" "u1" "w1" 10 gSample wSample [wSample]
    dbSample .allOk h1 h2 h3 h4 h5
  have hdb1 : (handleAddMoney "10" (some "u1") (some "w1") gSample [wSample]
      dbSample .allOk).2 =
      { wallets := [{ wSample with balance := 90 }]
        goals := [{ gSample with current_amount := 10 }]
        transactions := [transferRecord "u1" gSample 10]
        investments := [], profiles := [] } := by
    rw [e1]
    simp [FailureSpec.allOk, updateGoalAmount, updateWalletBalance, dbSample,
      gSample, wSample]
    norm_num [gSample, wSample]
  rw [hdb1]
  have e2 := @handleAddMoney_ok "10" "u1" "w1" 10 gSample wSample [wSample]
    { wallets := [{ wSample with balance := 90 }]
      goals := [{ gSample with current_amount := 10 }]
      transactions := [transferRecord "u1" gSample 10]
      investments := ([] : List Investment), profiles := ([] : List Profile) }
    .allOk h1 h2 h3 h4 h5
  rw [e2]
  refine ⟨?_, ?_, ?_, ?_⟩
  · simp [FailureSpec.allOk]
  · simp [FailureSpec.allOk, updateGoalAmount, gSample]
  · simp [FailureSpec.allOk, updateWalletBalance, wSample]
    norm_num
  · intro hall
    have := hall { gSample with current_amount := 10 } (by
      simp [FailureSpec.allOk, updateGoalAmount, gSample]) rfl
    norm_num [gSample] at this

/-- C7 amended: invoking the transfer twice with identical arguments
appends two independent ledger entries, but the goal and wallet rows end at
snapshot value plus/minus a single amount, because each invocation writes
absolute values computed from the same stale snapshot; the doubled change
only arises when the second invocation reads refreshed snapshots. -/
theorem transfer_repeat_two_entries_single_change (t uid wid : String)
    (q : ℚ) (goal : Goal) (wallet : Wallet) (wallets : List Wallet) (db : DB)
    (ht : t ≠ "")
    (hparse : parseFloatQ t = some q)
    (hpos : 0 < q)
    (hbal : q ≤ wallet.balance)
    (hfind : wallets.find? (fun w => w.id == wid) = some wallet) :
    ((handleAddMoney t (some uid) (some wid) goal wallets
        (handleAddMoney t (some uid) (some wid) goal wallets db .allOk).2
        .allOk).2.transactions =
      db.transactions ++ [transferRecord uid goal q, transferRecord uid goal q]) ∧
    (∀ g ∈ (handleAddMoney t (some uid) (some wid) goal wallets
        (handleAddMoney t (some uid) (some wid) goal wallets db .allOk).2
        .allOk).2.goals,
      g.id = goal.id → g.current_amount = goal.current_amount + q) ∧
    (∀ w ∈ (handleAddMoney t (some uid) (some wid) goal wallets
        (handleAddMoney t (some uid) (some wid) goal wallets db .allOk).2
        .allOk).2.wallets,
      w.id = wid → w.balance = wallet.balance - q) := by
  have key : ∀ d : DB,
      (handleAddMoney t (some uid) (some wid) goal wallets d .allOk).2 =
      { d with
        goals := updateGoalAmount d.goals goal.id (goal.current_amount + q)
        wallets := updateWalletBalance d.wallets wid (wallet.balance - q)
        transactions := d.transactions ++ [transferRecord uid goal q] } := by
    intro d
    rw [@handleAddMoney_ok t uid wid q goal wallet wallets d .allOk
      ht hparse hpos hbal hfind]
    simp [FailureSpec.allOk]
  rw [key, key]
  refine ⟨by simp, mem_updateGoalAmount, mem_updateWalletBalance⟩

/-- C7 witness: the amended statement at amount "10" on the sample store. -/
theorem transfer_repeat_two_entries_single_change_witness :
    ("10" : String) ≠ "" ∧
    parseFloatQ "10" = some 10 ∧
    (0 : ℚ) < 10 ∧
    (10 : ℚ) ≤ wSample.balance ∧
    [wSample].find? (fun w => w.id == "w1") = some wSample ∧
    ((handleAddMoney "10" (some "u1") (some "w1") gSample [wSample]
        (handleAddMoney "10" (some "u1") (some "w1") gSample [wSample]
          dbSample .allOk).2 .allOk).2.transactions =
      dbSample.transactions ++
        [transferRecord "u1" gSample 10, transferRecord "u1" gSample 10]) ∧
    (∀ g ∈ (handleAddMoney "10" (some "u1") (some "w1") gSample [wSample]
        (handleAddMoney "10" (some "u1") (some "w1") gSample [wSample]
          dbSample .allOk).2 .allOk).2.goals,
      g.id = gSample.id → g.current_amount = gSample.current_amount + 10) ∧
    (∀ w ∈ (handleAddMoney "10" (some "u1") (some "w1") gSample [wSample]
        (handleAddMoney "10" (some "u1") (some "w1") gSample [wSample]
          dbSample .allOk).2 .allOk).2.wallets,
      w.id = "w1" → w.balance = wSample.balance - 10) := by
  have h1 : ("10" : String) ≠ "" := by decide
  have h2 : parseFloatQ "10" = some 10 := by
    simp [parseFloatQ, digitsToNat, digitVal]
  have h3 : (0 : ℚ) < 10 := by norm_num
  have h4 : (10 : ℚ) ≤ wSample.balance := by norm_num [wSample]
  have h5 : [wSample].find? (fun w => w.id == "w1") = some wSample := by rfl
  obtain ⟨c1, c2, c3⟩ := transfer_repeat_two_entries_single_change "10" "u1"
    "w1" 10 gSample wSample [wSample] dbSample h1 h2 h3 h4 h5
  exact ⟨h1, h2, h3, h4, h5, c1, c2, c3⟩

/-- C6 counterexample: for the goal with current 250 and target 200 the
percentage the card displays is `Math.round(125) = 125`, which exceeds 100
and differs from the claimed clamped value `min(125, 100) = 100`; only the
bar width is clamped. -/
theorem progress_display_unclamped_counterexample :
    progressOf gOver = 125 ∧
    progressPercentText gOver = 125 ∧
    ¬ progressPercentText gOver ≤ 100 ∧
    progressPercentText gOver ≠ jsMathRound (min (progressOf gOver) 100) := by
  have hp : progressOf gOver = 125 := by norm_num [progressOf, gOver]
  have hr : progressPercentText gOver = 125 := by
    rw [progressPercentText, jsMathRound, hp]
    rw [Int.floor_eq_iff]
    constructor <;> norm_num
  have hmin : jsMathRound (min (progressOf gOver) 100) = 100 := by
    rw [jsMathRound, hp]
    rw [show min (125 : ℚ) 100 = 100 by norm_num [min_def]]
    rw [Int.floor_eq_iff]
    constructor <;> norm_num
  refine ⟨hp, hr, by rw [hr]; norm_num, by rw [hr, hmin]; norm_num⟩

/-- C6 amended: the progress-bar fill width is the clamped
`min(current/target*100, 100)` — 25 for (50, 200), 100 for (250, 200),
never above 100 — but the printed "% complete" figure is the unclamped
`Math.round(current/target*100)` and shows 125 for (250, 200). -/
theorem progress_bar_clamped_text_not (g : Goal) :
    progressBarWidth g ≤ 100 ∧
    progressBarWidth g = min (progressOf g) 100 ∧
    progressPercentText g = jsMathRound (progressOf g) ∧
    progressBarWidth gQuarter = 25 ∧
    progressPercentText gQuarter = 25 ∧
    progressBarWidth gOver = 100 ∧
    progressPercentText gOver = 125 := by
  refine ⟨min_le_right _ _, rfl, rfl, ?_, ?_, ?_, ?_⟩
  · norm_num [progressBarWidth, progressOf, gQuarter, min_def]
  · rw [progressPercentText, jsMathRound,
      show progressOf gQuarter = 25 by norm_num [progressOf, gQuarter]]
    rw [Int.floor_eq_iff]
    constructor <;> norm_num
  · norm_num [progressBarWidth, progressOf, gOver, min_def]
  · rw [progressPercentText, jsMathRound,
      show progressOf gOver = 125 by norm_num [progressOf, gOver]]
    rw [Int.floor_eq_iff]
    constructor <;> norm_num

/-- C9: the expense form checks no sufficient balance: for any parsed
amount the ledger entry is inserted first, then the wallet balance is set
to balance minus amount — so an expense above the balance stores a negative
balance, and a failed wallet update still leaves the inserted ledger
entry. -/
theorem expense_no_balance_check (d t : String) (q : ℚ) (uid wid : String)
    (wallet : Wallet) (wallets : List Wallet) (db : DB)
    (f : CreateFailureSpec)
    (hd : d ≠ "")
    (ht : t ≠ "")
    (hparse : parseFloatQ t = some q)
    (hfind : wallets.find? (fun w => w.id == wid) = some wallet)
    (htx : f.txFails = false) :
    ∃ r db1,
      handleCreate d t .expense (some wid) (some uid) wallets db f =
        some (r, db1) ∧
      db1.transactions = db.transactions ++
        [{ title := "expense", user_id := uid, description := d, amount := q
           type := .expense, category := none }] ∧
      (f.walletFails = false → r = .created ∧
        ∀ w ∈ db1.wallets, w.id = wid → w.balance = wallet.balance - q) ∧
      (f.walletFails = true → r = .walletUpdateError ∧
        db1.wallets = db.wallets) ∧
      (wallet.balance < q → f.walletFails = false →
        ∀ w ∈ db1.wallets, w.id = wid → w.balance < 0) := by
  simp only [handleCreate]
  rw [if_neg (by simp [hd, ht]), hparse]
  dsimp only
  rw [hfind]
  dsimp only
  rw [if_neg (by simp [htx])]
  by_cases hw : f.walletFails
  · rw [if_pos hw]
    refine ⟨_, _, rfl, by simp [TransactionType.str], ?_, ?_, ?_⟩
    · intro hc
      rw [hw] at hc
      exact absurd hc (by simp)
    · intro _
      exact ⟨rfl, rfl⟩
    · intro _ hc
      rw [hw] at hc
      exact absurd hc (by simp)
  · rw [if_neg hw]
    refine ⟨_, _, rfl, by simp [TransactionType.str], ?_, ?_, ?_⟩
    · intro _
      refine ⟨rfl, ?_⟩
      intro w hwmem hid
      have := mem_updateWalletBalance w hwmem hid
      rw [this]
      simp
    · intro hc
      rw [hc] at hw
      exact absurd rfl hw
    · intro hlt _
      intro w hwmem hid
      have := mem_updateWalletBalance w hwmem hid
      rw [this,
        if_neg (by decide : ¬ (TransactionType.expense = TransactionType.income))]
      linarith

/-- C9 witness: an expense of "180" against the sample wallet (balance 100)
inserts the ledger entry and stores balance -80. -/
theorem expense_no_balance_check_witness :
    ("Lunch" : String) ≠ "" ∧
    ("180" : String) ≠ "" ∧
    parseFloatQ "180" = some 180 ∧
    [wSample].find? (fun w => w.id == "w1") = some wSample ∧
    (CreateFailureSpec.mk false false).txFails = false ∧
    (∃ r db1,
      handleCreate "Lunch" "180" .expense (some "w1") (some "u1") [wSample]
        dbSample (CreateFailureSpec.mk false false) = some (r, db1) ∧
      db1.transactions = dbSample.transactions ++
        [{ title := "expense", user_id := "u1", description := "Lunch"
           amount := 180, type := .expense, category := none }] ∧
      ((CreateFailureSpec.mk false false).walletFails = false →
        r = .created ∧
        ∀ w ∈ db1.wallets, w.id = "w1" → w.balance = wSample.balance - 180) ∧
      ((CreateFailureSpec.mk false false).walletFails = true →
        r = .walletUpdateError ∧ db1.wallets = dbSample.wallets) ∧
      (wSample.balance < 180 →
        (CreateFailureSpec.mk false false).walletFails = false →
        ∀ w ∈ db1.wallets, w.id = "w1" → w.balance < 0)) := by
  have h1 : ("Lunch" : String) ≠ "" := by decide
  have h2 : ("180" : String) ≠ "" := by decide
  have h3 : parseFloatQ "180" = some 180 := by
    simp [parseFloatQ, digitsToNat, digitVal]
  have h4 : [wSample].find? (fun w => w.id == "w1") = some wSample := by rfl
  exact ⟨h1, h2, h3, h4, rfl,
    expense_no_balance_check "Lunch" "180" 180 "u1" "w1" wSample [wSample]
      dbSample (CreateFailureSpec.mk false false) h1 h2 h3 h4 rfl⟩

/-- C10: amount text "12abc" (numeric prefix before trailing letters) is
not rejected: it parses to 12 and, when the wallet covers it, the full
transfer runs with amount 12. -/
theorem transfer_trailing_garbage_accepted (uid wid : String) (goal : Goal)
    (wallet : Wallet) (wallets : List Wallet) (db : DB)
    (hbal : 12 ≤ wallet.balance)
    (hfind : wallets.find? (fun w => w.id == wid) = some wallet) :
    parseFloatQ "12abc" = some 12 ∧
    (handleAddMoney "12abc" (some uid) (some wid) goal wallets db
      .allOk).1 = .committed ∧
    (∀ g ∈ (handleAddMoney "12abc" (some uid) (some wid) goal wallets db
        .allOk).2.goals,
      g.id = goal.id → g.current_amount = goal.current_amount + 12) ∧
    (∀ w ∈ (handleAddMoney "12abc" (some uid) (some wid) goal wallets db
        .allOk).2.wallets,
      w.id = wid → w.balance = wallet.balance - 12) ∧
    (handleAddMoney "12abc" (some uid) (some wid) goal wallets db
      .allOk).2.transactions = db.transactions ++ [transferRecord uid goal 12] := by
  have h2 : parseFloatQ "12abc" = some 12 := by
    simp [parseFloatQ, digitsToNat, digitVal]
  rw [@handleAddMoney_ok "12abc" uid wid 12 goal wallet wallets db .allOk
    (by decide) h2 (by norm_num) hbal hfind]
  exact ⟨h2, rfl, mem_updateGoalAmount, mem_updateWalletBalance, rfl⟩

/-- C10 witness: transferring "12abc" on the sample data commits with
amount 12. -/
theorem transfer_trailing_garbage_accepted_witness :
    (12 : ℚ) ≤ wSample.balance ∧
    [wSample].find? (fun w => w.id == "w1") = some wSample ∧
    (parseFloatQ "12abc" = some 12 ∧
      (handleAddMoney "12abc" (some "u1") (some "w1") gSample [wSample]
        dbSample .allOk).1 = .committed ∧
      (∀ g ∈ (handleAddMoney "12abc" (some "u1") (some "w1") gSample [wSample]
          dbSample .allOk).2.goals,
        g.id = gSample.id → g.current_amount = gSample.current_amount + 12) ∧
      (∀ w ∈ (handleAddMoney "12abc" (some "u1") (some "w1") gSample [wSample]
          dbSample .allOk).2.wallets,
        w.id = "w1" → w.balance = wSample.balance - 12) ∧
      (handleAddMoney "12abc" (some "u1") (some "w1") gSample [wSample]
        dbSample .allOk).2.transactions =
        dbSample.transactions ++ [transferRecord "u1" gSample 12]) := by
  have h1 : (12 : ℚ) ≤ wSample.balance := by norm_num [wSample]
  have h2 : [wSample].find? (fun w => w.id == "w1") = some wSample := by rfl
  exact ⟨h1, h2, transfer_trailing_garbage_accepted "u1" "w1" gSample wSample
    [wSample] dbSample h1 h2⟩

end FinGenZ
